import Mathlib

/-!
# CSI send node (`receiver/main/app_main.c`)

A shallow embedding of the ESP-NOW broadcast firmware: the start-up sequence
(`nvs_flash_init`, `wifi_init`, `esp_now_init_config`) as explicit state passing over a
trace of platform calls, and the broadcast loop of `app_main` as a step function on the
32-bit packet counter.

Platform calls are external (ESP-IDF).  Their return codes are inputs of the model: one
per call site of the start-up code (`Platform`) and one per loop iteration (`TickEnv`).
-/

namespace CsiSend

/-! ## ESP-IDF types and constants used by the source -/

/-- The ESP-IDF error code type, a C `int`. -/
abbrev esp_err_t := Int

def ESP_OK : esp_err_t := 0
def ESP_FAIL : esp_err_t := -1
def ESP_ERR_NO_MEM : esp_err_t := 0x101
def ESP_ERR_NVS_BASE : esp_err_t := 0x1100
def ESP_ERR_NVS_NO_FREE_PAGES : esp_err_t := ESP_ERR_NVS_BASE + 0x0d
def ESP_ERR_NVS_NEW_VERSION_FOUND : esp_err_t := ESP_ERR_NVS_BASE + 0x10

inductive wifi_mode_t
  | WIFI_MODE_NULL | WIFI_MODE_STA | WIFI_MODE_AP | WIFI_MODE_APSTA
  deriving DecidableEq

inductive wifi_storage_t
  | WIFI_STORAGE_FLASH | WIFI_STORAGE_RAM
  deriving DecidableEq

inductive wifi_interface_t
  | WIFI_IF_STA | WIFI_IF_AP
  deriving DecidableEq

inductive wifi_band_mode_t
  | WIFI_BAND_MODE_2G_ONLY | WIFI_BAND_MODE_5G_ONLY | WIFI_BAND_MODE_AUTO
  deriving DecidableEq

/-- The bandwidth selections of `wifi_bandwidth_t`; `WIFI_BW_HT20` is the narrowest. -/
inductive wifi_bandwidth_t
  | WIFI_BW_HT20 | WIFI_BW_HT40 | WIFI_BW80 | WIFI_BW160 | WIFI_BW80_BW80
  deriving DecidableEq

inductive wifi_second_chan_t
  | WIFI_SECOND_CHAN_NONE | WIFI_SECOND_CHAN_ABOVE | WIFI_SECOND_CHAN_BELOW
  deriving DecidableEq

inductive wifi_ps_type_t
  | WIFI_PS_NONE | WIFI_PS_MIN_MODEM | WIFI_PS_MAX_MODEM
  deriving DecidableEq

inductive wifi_phy_mode_t
  | WIFI_PHY_MODE_LR | WIFI_PHY_MODE_11B | WIFI_PHY_MODE_11G | WIFI_PHY_MODE_HT20
  | WIFI_PHY_MODE_HT40 | WIFI_PHY_MODE_HE20
  deriving DecidableEq

inductive wifi_phy_rate_t
  | WIFI_PHY_RATE_1M_L | WIFI_PHY_RATE_MCS0_LGI | WIFI_PHY_RATE_MCS0_SGI
  deriving DecidableEq

/-- The protocol bitmap bit `WIFI_PROTOCOL_11N`. -/
def WIFI_PROTOCOL_11N : Nat := 4

/-- A hardware address: six bytes. -/
abbrev mac_addr := List Nat

structure esp_now_peer_info_t where
  peer_addr : mac_addr
  channel : Nat
  ifidx : wifi_interface_t
  encrypt : Bool
  deriving DecidableEq

structure esp_now_rate_config_t where
  phymode : wifi_phy_mode_t
  rate : wifi_phy_rate_t
  ersu : Bool
  dcm : Bool
  deriving DecidableEq

/-! ## Build configuration (the preprocessor inputs) -/

inductive idf_target
  | esp32 | esp32s2 | esp32s3 | esp32c2 | esp32c3 | esp32c5 | esp32c6 | esp32c61
  deriving DecidableEq

/-- The value of `ESP_IDF_VERSION_VAL(major, minor, patch)`. -/
def ESP_IDF_VERSION_VAL (major minor patch : Nat) : Nat :=
  major * 65536 + minor * 256 + patch

/-- What the build fixes: the target chip, the ESP-IDF version, the bandwidth selection
(`CONFIG_WIFI_2G_BANDWIDTHS` on the newer targets, `CONFIG_WIFI_BANDWIDTH` on the others)
and the send frequency in Hz. -/
structure BuildConfig where
  target : idf_target
  ESP_IDF_VERSION : Nat
  CONFIG_WIFI_BANDWIDTH : wifi_bandwidth_t
  CONFIG_SEND_FREQUENCY : Nat
  deriving DecidableEq

def CONFIG_WIFI_CHANNEL : Nat := 11

/-- The source defines the band mode as 2.4 GHz only (line 35). -/
def CONFIG_WIFI_BAND_MODE : wifi_band_mode_t := wifi_band_mode_t.WIFI_BAND_MODE_2G_ONLY

def CONFIG_WIFI_2G_PROTOCOL : Nat := WIFI_PROTOCOL_11N

def CONFIG_ESP_NOW_PHYMODE : wifi_phy_mode_t := wifi_phy_mode_t.WIFI_PHY_MODE_HT40
def CONFIG_ESP_NOW_RATE : wifi_phy_rate_t := wifi_phy_rate_t.WIFI_PHY_RATE_MCS0_LGI

/-- Fixed MAC address for the sender (line 46). -/
def CONFIG_CSI_SEND_MAC : mac_addr := [0x1a, 0x00, 0x00, 0x00, 0x00, 0x00]

/-- Both spellings of the station interface in the source (`ESP_IF_WIFI_STA`, also when
it is redefined as `ESP_MAC_WIFI_STA` for ESP-IDF 6.0 and later) have the value 0. -/
def ESP_IF_WIFI_STA : wifi_interface_t := wifi_interface_t.WIFI_IF_STA

/-- The shipped settings: HT40 at 100 Hz. -/
def shipped (target : idf_target) (version : Nat) : BuildConfig :=
  ⟨target, version, wifi_bandwidth_t.WIFI_BW_HT40, 100⟩

/-- The condition `CONFIG_IDF_TARGET_ESP32C5` of lines 65 and 97. -/
def profile_c5 (cfg : BuildConfig) : Bool :=
  cfg.target == idf_target.esp32c5

/-- The condition of lines 78 and 103:
`(CONFIG_IDF_TARGET_ESP32C6 && ESP_IDF_VERSION >= ESP_IDF_VERSION_VAL(5, 4, 0)) ||
CONFIG_IDF_TARGET_ESP32C61`. -/
def profile_c6 (cfg : BuildConfig) : Bool :=
  (cfg.target == idf_target.esp32c6 && decide (ESP_IDF_VERSION_VAL 5 4 0 ≤ cfg.ESP_IDF_VERSION))
    || cfg.target == idf_target.esp32c61

/-! ## Platform calls, events and the run state -/

inductive Call
  | nvs_flash_init
  | nvs_flash_erase
  | esp_event_loop_create_default
  | esp_netif_init
  | esp_wifi_init
  | esp_wifi_set_mode (mode : wifi_mode_t)
  | esp_wifi_set_storage (storage : wifi_storage_t)
  | esp_wifi_start
  | esp_wifi_set_band_mode (band_mode : wifi_band_mode_t)
  | esp_wifi_set_protocols (ifx : wifi_interface_t) (ghz_2g ghz_5g : Nat)
  | esp_wifi_set_bandwidths (ifx : wifi_interface_t) (ghz_2g ghz_5g : Option wifi_bandwidth_t)
  | esp_wifi_set_bandwidth (ifx : wifi_interface_t) (bw : wifi_bandwidth_t)
  | esp_wifi_set_ps (ps : wifi_ps_type_t)
  | esp_wifi_set_channel (primary : Nat) (second : wifi_second_chan_t)
  | esp_wifi_set_mac (ifx : wifi_interface_t) (mac : mac_addr)
  | esp_now_init
  | esp_now_set_pmk (pmk : String)
  | esp_now_add_peer (peer : esp_now_peer_info_t)
  | esp_now_set_peer_rate_config (peer_addr : mac_addr) (config : esp_now_rate_config_t)
  | esp_now_send (peer_addr : mac_addr) (data : List Nat) (len : Nat)
  deriving DecidableEq

/-- What the firmware does that is visible from outside: a platform call with the code it
returned, a log line, or a sleep.  `ESP_LOGI_banner` stands for the four start-up lines
161-164, `ESP_LOGW_send_error` for line 173 and `ESP_LOGI_sent` for line 178. -/
inductive Event
  | call (c : Call) (ret : esp_err_t)
  | ESP_LOGI_banner
  | ESP_LOGW_send_error (ret : esp_err_t) (free_heap : Nat)
  | ESP_LOGI_sent (count : Nat) (free_heap : Nat)
  | usleep (us : Nat)
  deriving DecidableEq

/-- The return code of every call site of the start-up code.  `nvs_flash_init` has two
call sites (lines 142 and 145). -/
structure Platform where
  nvs_flash_init : esp_err_t
  nvs_flash_erase : esp_err_t
  nvs_flash_init_again : esp_err_t
  esp_event_loop_create_default : esp_err_t
  esp_netif_init : esp_err_t
  esp_wifi_init : esp_err_t
  esp_wifi_set_mode : esp_err_t
  esp_wifi_set_storage : esp_err_t
  esp_wifi_start : esp_err_t
  esp_wifi_set_band_mode : esp_err_t
  esp_wifi_set_protocols : esp_err_t
  esp_wifi_set_bandwidths : esp_err_t
  esp_wifi_set_bandwidth : esp_err_t
  esp_wifi_set_ps : esp_err_t
  esp_wifi_set_channel : esp_err_t
  esp_wifi_set_mac : esp_err_t
  esp_now_init : esp_err_t
  esp_now_set_pmk : esp_err_t
  esp_now_add_peer : esp_err_t
  esp_now_set_peer_rate_config : esp_err_t
  deriving DecidableEq

/-- The state threaded through the start-up code: the events so far, and whether an
`ESP_ERROR_CHECK` has aborted the firmware. -/
structure Run where
  trace : List Event
  halted : Bool
  deriving DecidableEq

def Run.start : Run := ⟨[], false⟩

/-- Make a platform call; its return code is recorded with it. -/
def invoke (r : Run) (c : Call) (ret : esp_err_t) : Run :=
  if r.halted then r else ⟨r.trace ++ [Event.call c ret], false⟩

/-- The macro `ESP_ERROR_CHECK(x)`: abort unless `x == ESP_OK`. -/
def ESP_ERROR_CHECK (r : Run) (x : esp_err_t) : Run :=
  if r.halted then r else ⟨r.trace, x != ESP_OK⟩

/-- The statement `ESP_ERROR_CHECK(f(...))`. -/
def checked (r : Run) (c : Call) (ret : esp_err_t) : Run :=
  ESP_ERROR_CHECK (invoke r c ret) ret

/-- A log statement or a sleep. -/
def emit (r : Run) (e : Event) : Run :=
  if r.halted then r else ⟨r.trace ++ [e], false⟩

/-! ## The start-up code -/

/-- The branch of lines 96-115: which secondary channel `esp_wifi_set_channel` gets. -/
def wifi_init_second_chan (cfg : BuildConfig) : wifi_second_chan_t :=
  if profile_c5 cfg then
    if CONFIG_WIFI_BAND_MODE == wifi_band_mode_t.WIFI_BAND_MODE_2G_ONLY
        && cfg.CONFIG_WIFI_BANDWIDTH == wifi_bandwidth_t.WIFI_BW_HT20 then
      wifi_second_chan_t.WIFI_SECOND_CHAN_NONE
    else
      wifi_second_chan_t.WIFI_SECOND_CHAN_BELOW
  else if profile_c6 cfg then
    if CONFIG_WIFI_BAND_MODE == wifi_band_mode_t.WIFI_BAND_MODE_2G_ONLY
        && cfg.CONFIG_WIFI_BANDWIDTH == wifi_bandwidth_t.WIFI_BW_HT20 then
      wifi_second_chan_t.WIFI_SECOND_CHAN_NONE
    else
      wifi_second_chan_t.WIFI_SECOND_CHAN_BELOW
  else
    if cfg.CONFIG_WIFI_BANDWIDTH == wifi_bandwidth_t.WIFI_BW_HT20 then
      wifi_second_chan_t.WIFI_SECOND_CHAN_NONE
    else
      wifi_second_chan_t.WIFI_SECOND_CHAN_BELOW

/-- Lines 65-92 of `wifi_init`: protocol and bandwidth selection and radio start, in the
order of the branch the target selects.  The return of `esp_wifi_set_band_mode` is not
passed to `ESP_ERROR_CHECK` (lines 67 and 80). -/
def wifi_init_bandwidth (cfg : BuildConfig) (P : Platform) (r : Run) : Run :=
  if profile_c5 cfg then
    let r := checked r Call.esp_wifi_start P.esp_wifi_start
    let r := invoke r (Call.esp_wifi_set_band_mode CONFIG_WIFI_BAND_MODE) P.esp_wifi_set_band_mode
    let r := checked r
      (Call.esp_wifi_set_protocols ESP_IF_WIFI_STA CONFIG_WIFI_2G_PROTOCOL CONFIG_WIFI_2G_PROTOCOL)
      P.esp_wifi_set_protocols
    checked r
      (Call.esp_wifi_set_bandwidths ESP_IF_WIFI_STA
        (some cfg.CONFIG_WIFI_BANDWIDTH) (some cfg.CONFIG_WIFI_BANDWIDTH))
      P.esp_wifi_set_bandwidths
  else if profile_c6 cfg then
    let r := checked r Call.esp_wifi_start P.esp_wifi_start
    let r := invoke r (Call.esp_wifi_set_band_mode CONFIG_WIFI_BAND_MODE) P.esp_wifi_set_band_mode
    let r := checked r
      (Call.esp_wifi_set_protocols ESP_IF_WIFI_STA CONFIG_WIFI_2G_PROTOCOL 0)
      P.esp_wifi_set_protocols
    checked r
      (Call.esp_wifi_set_bandwidths ESP_IF_WIFI_STA (some cfg.CONFIG_WIFI_BANDWIDTH) none)
      P.esp_wifi_set_bandwidths
  else
    let r := checked r (Call.esp_wifi_set_bandwidth ESP_IF_WIFI_STA cfg.CONFIG_WIFI_BANDWIDTH)
      P.esp_wifi_set_bandwidth
    checked r Call.esp_wifi_start P.esp_wifi_start

/-- The function `wifi_init` (lines 55-119). -/
def wifi_init (cfg : BuildConfig) (P : Platform) (r : Run) : Run :=
  let r := checked r Call.esp_event_loop_create_default P.esp_event_loop_create_default
  let r := checked r Call.esp_netif_init P.esp_netif_init
  let r := checked r Call.esp_wifi_init P.esp_wifi_init
  let r := checked r (Call.esp_wifi_set_mode wifi_mode_t.WIFI_MODE_STA) P.esp_wifi_set_mode
  let r := checked r (Call.esp_wifi_set_storage wifi_storage_t.WIFI_STORAGE_RAM)
    P.esp_wifi_set_storage
  let r := wifi_init_bandwidth cfg P r
  let r := checked r (Call.esp_wifi_set_ps wifi_ps_type_t.WIFI_PS_NONE) P.esp_wifi_set_ps
  let r := checked r (Call.esp_wifi_set_channel CONFIG_WIFI_CHANNEL (wifi_init_second_chan cfg))
    P.esp_wifi_set_channel
  checked r (Call.esp_wifi_set_mac wifi_interface_t.WIFI_IF_STA CONFIG_CSI_SEND_MAC)
    P.esp_wifi_set_mac

/-- The rate configuration built at lines 130-135. -/
def rate_config : esp_now_rate_config_t :=
  ⟨CONFIG_ESP_NOW_PHYMODE, CONFIG_ESP_NOW_RATE, false, false⟩

/-- The function `esp_now_init_config` (lines 124-137). -/
def esp_now_init_config (P : Platform) (peer : esp_now_peer_info_t) (r : Run) : Run :=
  let r := checked r Call.esp_now_init P.esp_now_init
  let r := checked r (Call.esp_now_set_pmk "pmk1234567890123") P.esp_now_set_pmk
  let r := checked r (Call.esp_now_add_peer peer) P.esp_now_add_peer
  checked r (Call.esp_now_set_peer_rate_config peer.peer_addr rate_config)
    P.esp_now_set_peer_rate_config

/-- Lines 141-147 of `app_main`: storage set-up with one erase-and-retry. -/
def nvs_init (P : Platform) (r : Run) : Run :=
  let r := invoke r Call.nvs_flash_init P.nvs_flash_init
  let ret := P.nvs_flash_init
  if ret == ESP_ERR_NVS_NO_FREE_PAGES || ret == ESP_ERR_NVS_NEW_VERSION_FOUND then
    let r := checked r Call.nvs_flash_erase P.nvs_flash_erase
    let r := invoke r Call.nvs_flash_init P.nvs_flash_init_again
    let ret := P.nvs_flash_init_again
    ESP_ERROR_CHECK r ret
  else
    ESP_ERROR_CHECK r ret

/-- The broadcast peer of lines 153-158. -/
def peer : esp_now_peer_info_t :=
  ⟨[0xff, 0xff, 0xff, 0xff, 0xff, 0xff], CONFIG_WIFI_CHANNEL, wifi_interface_t.WIFI_IF_STA, false⟩

/-- Lines 141-164 of `app_main`: everything before the broadcast loop. -/
def app_main_setup (cfg : BuildConfig) (P : Platform) : Run :=
  let r := nvs_init P Run.start
  let r := wifi_init cfg P r
  let r := esp_now_init_config P peer r
  emit r Event.ESP_LOGI_banner

/-! ## The broadcast loop -/

/-- The object representation of a `uint32_t` on the (little-endian) ESP32 targets: what
`(const uint8_t *)&count` points to. -/
def uint32_bytes (count : Nat) : List Nat :=
  [count % 256, count / 256 % 256, count / 65536 % 256, count / 16777216 % 256]

/-- Read a `uint32_t` back from its object representation. -/
def uint32_of_bytes (data : List Nat) : Nat :=
  data.getD 0 0 + 256 * data.getD 1 0 + 65536 * data.getD 2 0 + 16777216 * data.getD 3 0

/-- The C expression `sizeof(count)` for `uint32_t count`. -/
def sizeof_count : Nat := 4

/-- What one iteration of the loop gets from outside: the code `esp_now_send` returns and
the two readings of `esp_get_free_heap_size()` (lines 174 and 178). -/
structure TickEnv where
  ret : esp_err_t
  free_heap_warn : Nat
  free_heap_info : Nat
  deriving DecidableEq

/-- The variable `send_interval_us` (line 167). -/
def send_interval_us (cfg : BuildConfig) : Nat :=
  1000 * 1000 / cfg.CONFIG_SEND_FREQUENCY

/-- The events of one iteration of the loop body (lines 170-181) at counter value `count`. -/
def loop_body (cfg : BuildConfig) (count : Nat) (e : TickEnv) : List Event :=
  let ret := e.ret
  [Event.call (Call.esp_now_send peer.peer_addr (uint32_bytes count) sizeof_count) ret]
    ++ (if ret != ESP_OK then [Event.ESP_LOGW_send_error ret e.free_heap_warn] else [])
    ++ (if count % (cfg.CONFIG_SEND_FREQUENCY * 10) == 0 then
          [Event.ESP_LOGI_sent count e.free_heap_info] else [])
    ++ [Event.usleep (send_interval_us cfg)]

/-- The loop variable and the events so far. -/
structure LoopState where
  count : Nat
  trace : List Event
  deriving DecidableEq

/-- One iteration: the body, then `++count` on a `uint32_t`. -/
def loop_iteration (cfg : BuildConfig) (s : LoopState) (e : TickEnv) : LoopState :=
  ⟨(s.count + 1) % 2 ^ 32, s.trace ++ loop_body cfg s.count e⟩

/-- The first `ticks.length` iterations of `for (uint32_t count = 0; ; ++count)`, the
i-th one in the environment `ticks[i]`. -/
def main_loop (cfg : BuildConfig) (ticks : List TickEnv) : LoopState :=
  ticks.foldl (loop_iteration cfg) ⟨0, []⟩

/-- The function `app_main`, observed for the first `ticks.length` iterations of its loop:
the loop is entered only when no `ESP_ERROR_CHECK` has aborted the start-up code. -/
def app_main (cfg : BuildConfig) (P : Platform) (ticks : List TickEnv) : Run :=
  let r := app_main_setup cfg P
  if r.halted then r else ⟨r.trace ++ (main_loop cfg ticks).trace, false⟩

/-! ## Observations on traces -/

def Event.is_send : Event → Bool
  | Event.call (Call.esp_now_send _ _ _) _ => true
  | _ => false

def Event.is_warning : Event → Bool
  | Event.ESP_LOGW_send_error _ _ => true
  | _ => false

def Event.is_summary : Event → Bool
  | Event.ESP_LOGI_sent _ _ => true
  | _ => false

def Event.is_set_mac : Event → Bool
  | Event.call (Call.esp_wifi_set_mac _ _) _ => true
  | _ => false

/-- The platform call of an event, if it is one. -/
def Event.to_call : Event → Option Call
  | Event.call c _ => some c
  | _ => none

/-- The platform calls of a trace, in order. -/
def calls (t : List Event) : List Call :=
  t.filterMap Event.to_call

/-- The hardware address of the station interface after a trace, for a device whose
factory address is `factory`: ESP-IDF documents that `esp_wifi_set_mac` returning
`ESP_OK` sets the address of the interface it names. -/
def sta_mac (factory : mac_addr) : List Event → mac_addr
  | [] => factory
  | Event.call (Call.esp_wifi_set_mac wifi_interface_t.WIFI_IF_STA mac) ret :: t =>
      if ret == ESP_OK then sta_mac mac t else sta_mac factory t
  | _ :: t => sta_mac factory t

/-- All return codes `ESP_OK`. -/
def Platform.ok : Platform :=
  ⟨0, 0, 0, 0, 0, 0, 0, 0, 0, 0, 0, 0, 0, 0, 0, 0, 0, 0, 0, 0⟩

def Call.is_esp_now : Call → Bool
  | Call.esp_now_init => true
  | Call.esp_now_set_pmk _ => true
  | Call.esp_now_add_peer _ => true
  | Call.esp_now_set_peer_rate_config _ _ => true
  | Call.esp_now_send _ _ _ => true
  | _ => false

def Call.is_set_channel : Call → Bool
  | Call.esp_wifi_set_channel _ _ => true
  | _ => false

/-- Storage set-up got through: no `ESP_ERROR_CHECK` of lines 141-147 aborted. -/
def nvs_ok (P : Platform) : Prop :=
  (nvs_init P Run.start).halted = false

instance (P : Platform) : Decidable (nvs_ok P) := by
  unfold nvs_ok
  infer_instance

/-- Every checked call that `wifi_init` makes before `esp_wifi_set_channel` on this
target returns `ESP_OK`. -/
def wifi_ok_before_channel (cfg : BuildConfig) (P : Platform) : Prop :=
  P.esp_event_loop_create_default = ESP_OK ∧ P.esp_netif_init = ESP_OK
    ∧ P.esp_wifi_init = ESP_OK ∧ P.esp_wifi_set_mode = ESP_OK
    ∧ P.esp_wifi_set_storage = ESP_OK ∧ P.esp_wifi_start = ESP_OK
    ∧ (if profile_c5 cfg || profile_c6 cfg
        then P.esp_wifi_set_protocols = ESP_OK ∧ P.esp_wifi_set_bandwidths = ESP_OK
        else P.esp_wifi_set_bandwidth = ESP_OK)
    ∧ P.esp_wifi_set_ps = ESP_OK

instance (cfg : BuildConfig) (P : Platform) : Decidable (wifi_ok_before_channel cfg P) := by
  unfold wifi_ok_before_channel
  infer_instance

/-- Every checked call of `wifi_init` on this target returns `ESP_OK`. -/
def wifi_ok (cfg : BuildConfig) (P : Platform) : Prop :=
  wifi_ok_before_channel cfg P ∧ P.esp_wifi_set_channel = ESP_OK ∧ P.esp_wifi_set_mac = ESP_OK

instance (cfg : BuildConfig) (P : Platform) : Decidable (wifi_ok cfg P) := by
  unfold wifi_ok
  infer_instance

/-- Every call of `esp_now_init_config` returns `ESP_OK`. -/
def esp_now_ok (P : Platform) : Prop :=
  P.esp_now_init = ESP_OK ∧ P.esp_now_set_pmk = ESP_OK ∧ P.esp_now_add_peer = ESP_OK
    ∧ P.esp_now_set_peer_rate_config = ESP_OK

instance (P : Platform) : Decidable (esp_now_ok P) := by
  unfold esp_now_ok
  infer_instance

/-- The derived secondary channel as the specification words it. -/
def second_chan_of_bandwidth (bw : wifi_bandwidth_t) : wifi_second_chan_t :=
  if bw = wifi_bandwidth_t.WIFI_BW_HT20 then wifi_second_chan_t.WIFI_SECOND_CHAN_NONE
  else wifi_second_chan_t.WIFI_SECOND_CHAN_BELOW

/-! ## Stepping through the start-up code -/

@[simp]
theorem invoke_halted (r : Run) (c : Call) (ret : esp_err_t) :
    (invoke r c ret).halted = r.halted := by
  unfold invoke
  cases h : r.halted <;> simp [h]

@[simp]
theorem invoke_trace (r : Run) (c : Call) (ret : esp_err_t) :
    (invoke r c ret).trace = if r.halted then r.trace else r.trace ++ [Event.call c ret] := by
  unfold invoke
  cases h : r.halted <;> simp [h]

@[simp]
theorem ESP_ERROR_CHECK_halted (r : Run) (x : esp_err_t) :
    (ESP_ERROR_CHECK r x).halted = (r.halted || x != ESP_OK) := by
  unfold ESP_ERROR_CHECK
  cases h : r.halted <;> simp [h]

@[simp]
theorem ESP_ERROR_CHECK_trace (r : Run) (x : esp_err_t) :
    (ESP_ERROR_CHECK r x).trace = r.trace := by
  unfold ESP_ERROR_CHECK
  cases h : r.halted <;> simp [h]

@[simp]
theorem checked_halted (r : Run) (c : Call) (ret : esp_err_t) :
    (checked r c ret).halted = (r.halted || ret != ESP_OK) := by
  simp [checked]

@[simp]
theorem checked_trace (r : Run) (c : Call) (ret : esp_err_t) :
    (checked r c ret).trace = if r.halted then r.trace else r.trace ++ [Event.call c ret] := by
  simp [checked]

@[simp]
theorem emit_halted (r : Run) (e : Event) : (emit r e).halted = r.halted := by
  unfold emit
  cases h : r.halted <;> simp [h]

@[simp]
theorem emit_trace (r : Run) (e : Event) :
    (emit r e).trace = if r.halted then r.trace else r.trace ++ [e] := by
  unfold emit
  cases h : r.halted <;> simp [h]

theorem wifi_init_second_chan_eq (cfg : BuildConfig) :
    wifi_init_second_chan cfg = second_chan_of_bandwidth cfg.CONFIG_WIFI_BANDWIDTH := by
  unfold wifi_init_second_chan second_chan_of_bandwidth
  cases profile_c5 cfg <;> cases profile_c6 cfg <;>
    by_cases h : cfg.CONFIG_WIFI_BANDWIDTH = wifi_bandwidth_t.WIFI_BW_HT20 <;>
    simp [h, CONFIG_WIFI_BAND_MODE]


/-! ## The loop counter -/

theorem foldl_loop_count (cfg : BuildConfig) (ticks : List TickEnv) (s : LoopState) :
    (ticks.foldl (loop_iteration cfg) s).count
      = if ticks = [] then s.count else (s.count + ticks.length) % 2 ^ 32 := by
  induction ticks generalizing s with
  | nil => simp
  | cons e rest ih =>
    rw [List.foldl_cons, ih]
    by_cases h : rest = []
    · subst h
      simp [loop_iteration]
    · simp only [h, if_false, loop_iteration, List.length_cons, reduceCtorEq]
      omega

theorem main_loop_snoc (cfg : BuildConfig) (ticks : List TickEnv) (e : TickEnv) :
    main_loop cfg (ticks ++ [e]) = loop_iteration cfg (main_loop cfg ticks) e := by
  simp [main_loop, List.foldl_append]

theorem main_loop_count_eq (cfg : BuildConfig) (ticks : List TickEnv) :
    (main_loop cfg ticks).count = ticks.length % 2 ^ 32 := by
  unfold main_loop
  rw [foldl_loop_count]
  by_cases h : ticks = []
  · subst h
    simp
  · simp [h]

/-- C1: from counter 0, after any number of iterations with any send outcomes the loop
counter is the number of iterations modulo 2^32; one more iteration adds exactly 1
(to 0 from 2^32 - 1) whatever `esp_now_send` returned, and after the wrap the loop goes
on counting. -/
theorem main_loop_counter (cfg : BuildConfig) (ticks more : List TickEnv) (e : TickEnv)
    (t : List Event) :
    (main_loop cfg ticks).count = ticks.length % 2 ^ 32
    ∧ (main_loop cfg (ticks ++ [e])).count
        = (if (main_loop cfg ticks).count = 2 ^ 32 - 1 then 0
           else (main_loop cfg ticks).count + 1)
    ∧ (loop_iteration cfg ⟨2 ^ 32 - 1, t⟩ e).count = 0
    ∧ (more.foldl (loop_iteration cfg) (loop_iteration cfg ⟨2 ^ 32 - 1, t⟩ e)).count
        = more.length % 2 ^ 32 := by
  refine ⟨main_loop_count_eq cfg ticks, ?_, ?_, ?_⟩
  · rw [main_loop_snoc]
    simp only [loop_iteration, main_loop_count_eq]
    split_ifs with h <;> omega
  · simp [loop_iteration]
  · rw [foldl_loop_count]
    by_cases h : more = []
    · subst h
      simp [loop_iteration]
    · simp [h, loop_iteration]

/-! ## The payload -/

theorem uint32_roundtrip (c : Nat) (h : c < 2 ^ 32) :
    uint32_of_bytes (uint32_bytes c) = c := by
  simp only [uint32_of_bytes, uint32_bytes, List.getD_cons_zero, List.getD_cons_succ]
  omega

theorem loop_body_sends (cfg : BuildConfig) (count : Nat) (e : TickEnv) :
    (loop_body cfg count e).filter Event.is_send
      = [Event.call (Call.esp_now_send peer.peer_addr (uint32_bytes count) sizeof_count) e.ret] := by
  unfold loop_body
  by_cases h1 : (e.ret != ESP_OK) = true <;>
    by_cases h2 : (count % (cfg.CONFIG_SEND_FREQUENCY * 10) == 0) = true <;>
    simp [h1, h2, Event.is_send]

/-! ## Sends, warnings and summaries of the loop -/

theorem loop_body_warnings (cfg : BuildConfig) (count : Nat) (e : TickEnv) :
    (loop_body cfg count e).filter Event.is_warning
      = if e.ret = ESP_OK then [] else [Event.ESP_LOGW_send_error e.ret e.free_heap_warn] := by
  unfold loop_body
  by_cases h1 : e.ret = ESP_OK <;>
    by_cases h2 : (count % (cfg.CONFIG_SEND_FREQUENCY * 10) == 0) = true <;>
    simp [h1, h2, Event.is_warning]

theorem loop_body_summaries (cfg : BuildConfig) (count : Nat) (e : TickEnv) :
    (loop_body cfg count e).filter Event.is_summary
      = if count % (cfg.CONFIG_SEND_FREQUENCY * 10) = 0
          then [Event.ESP_LOGI_sent count e.free_heap_info] else [] := by
  unfold loop_body
  by_cases h1 : e.ret = ESP_OK <;>
    by_cases h2 : count % (cfg.CONFIG_SEND_FREQUENCY * 10) = 0 <;>
    simp [h1, h2, Event.is_summary]

theorem foldl_loop_sends (cfg : BuildConfig) (ticks : List TickEnv) (s : LoopState) :
    ((ticks.foldl (loop_iteration cfg) s).trace.filter Event.is_send).length
      = (s.trace.filter Event.is_send).length + ticks.length := by
  induction ticks generalizing s with
  | nil => simp
  | cons e rest ih =>
    rw [List.foldl_cons, ih]
    simp only [loop_iteration, List.filter_append, List.length_append, loop_body_sends,
      List.length_cons, List.length_nil]
    omega

theorem foldl_loop_warnings (cfg : BuildConfig) (ticks : List TickEnv) (s : LoopState) :
    ((ticks.foldl (loop_iteration cfg) s).trace.filter Event.is_warning).length
      = (s.trace.filter Event.is_warning).length
        + (ticks.filter (fun e => e.ret != ESP_OK)).length := by
  induction ticks generalizing s with
  | nil => simp
  | cons e rest ih =>
    rw [List.foldl_cons, ih]
    simp only [loop_iteration, List.filter_append, List.length_append, loop_body_warnings]
    by_cases h : e.ret = ESP_OK
    · simp [h]
    · simp [h]
      omega

theorem foldl_loop_no_summary (cfg : BuildConfig) (ticks : List TickEnv) (s : LoopState)
    (h1 : 1 ≤ s.count) (h2 : s.count + ticks.length ≤ cfg.CONFIG_SEND_FREQUENCY * 10)
    (h3 : cfg.CONFIG_SEND_FREQUENCY * 10 ≤ 2 ^ 32) :
    (ticks.foldl (loop_iteration cfg) s).trace.filter Event.is_summary
      = s.trace.filter Event.is_summary := by
  induction ticks generalizing s with
  | nil => simp
  | cons e rest ih =>
    rw [List.foldl_cons]
    simp only [List.length_cons] at h2
    have hlt : s.count < cfg.CONFIG_SEND_FREQUENCY * 10 := by omega
    have hmod : (s.count + 1) % 2 ^ 32 = s.count + 1 := Nat.mod_eq_of_lt (by omega)
    rw [ih]
    · simp only [loop_iteration, List.filter_append, loop_body_summaries]
      have : s.count % (cfg.CONFIG_SEND_FREQUENCY * 10) ≠ 0 := by
        rw [Nat.mod_eq_of_lt hlt]
        omega
      simp [this]
    · simp only [loop_iteration, hmod]
      omega
    · simp only [loop_iteration, hmod]
      omega

theorem main_loop_one_summary (cfg : BuildConfig) (ticks : List TickEnv)
    (h0 : ticks ≠ []) (h2 : ticks.length ≤ cfg.CONFIG_SEND_FREQUENCY * 10)
    (h3 : cfg.CONFIG_SEND_FREQUENCY * 10 ≤ 2 ^ 32) :
    ∃ free_heap, (main_loop cfg ticks).trace.filter Event.is_summary
      = [Event.ESP_LOGI_sent 0 free_heap] := by
  cases ticks with
  | nil => exact absurd rfl h0
  | cons e rest =>
    refine ⟨e.free_heap_info, ?_⟩
    simp only [List.length_cons] at h2
    unfold main_loop
    rw [List.foldl_cons, foldl_loop_no_summary]
    · simp [loop_iteration, loop_body_summaries]
    · simp [loop_iteration]
    · simp only [loop_iteration]
      norm_num
      omega
    · exact h3

/-! ## One send per iteration -/

/-- C4: every iteration makes exactly one `esp_now_send` call and logs one warning when
that call did not return `ESP_OK` and none when it did; so n iterations make n calls and
log as many warnings as calls failed.  At 100 Hz, 1000 iterations whose sends all fail
give 1000 warnings, one summary (of count 0) and counter 1000, and 100 iterations whose
sends all succeed give no warning, one summary (of count 0), 100 calls and counter 100. -/
theorem one_send_per_tick :
    (∀ (cfg : BuildConfig) (count : Nat) (e : TickEnv),
        ((loop_body cfg count e).filter Event.is_send).length = 1
        ∧ (loop_body cfg count e).filter Event.is_warning
            = (if e.ret = ESP_OK then []
               else [Event.ESP_LOGW_send_error e.ret e.free_heap_warn]))
    ∧ (∀ (cfg : BuildConfig) (ticks : List TickEnv),
        ((main_loop cfg ticks).trace.filter Event.is_send).length = ticks.length
        ∧ ((main_loop cfg ticks).trace.filter Event.is_warning).length
            = (ticks.filter (fun e => e.ret != ESP_OK)).length)
    ∧ (∀ (cfg : BuildConfig) (ticks : List TickEnv), cfg.CONFIG_SEND_FREQUENCY = 100 →
        ticks.length = 1000 → (∀ e ∈ ticks, e.ret ≠ ESP_OK) →
        ((main_loop cfg ticks).trace.filter Event.is_warning).length = 1000
        ∧ (∃ free_heap, (main_loop cfg ticks).trace.filter Event.is_summary
            = [Event.ESP_LOGI_sent 0 free_heap])
        ∧ ((main_loop cfg ticks).trace.filter Event.is_send).length = 1000
        ∧ (main_loop cfg ticks).count = 1000)
    ∧ (∀ (cfg : BuildConfig) (ticks : List TickEnv), cfg.CONFIG_SEND_FREQUENCY = 100 →
        ticks.length = 100 → (∀ e ∈ ticks, e.ret = ESP_OK) →
        (main_loop cfg ticks).trace.filter Event.is_warning = []
        ∧ (∃ free_heap, (main_loop cfg ticks).trace.filter Event.is_summary
            = [Event.ESP_LOGI_sent 0 free_heap])
        ∧ ((main_loop cfg ticks).trace.filter Event.is_send).length = 100
        ∧ (main_loop cfg ticks).count = 100) := by
  have hsend : ∀ (cfg : BuildConfig) (ticks : List TickEnv),
      ((main_loop cfg ticks).trace.filter Event.is_send).length = ticks.length := by
    intro cfg ticks
    unfold main_loop
    rw [foldl_loop_sends]
    simp
  have hwarn : ∀ (cfg : BuildConfig) (ticks : List TickEnv),
      ((main_loop cfg ticks).trace.filter Event.is_warning).length
        = (ticks.filter (fun e => e.ret != ESP_OK)).length := by
    intro cfg ticks
    unfold main_loop
    rw [foldl_loop_warnings]
    simp
  refine ⟨?_, fun cfg ticks => ⟨hsend cfg ticks, hwarn cfg ticks⟩, ?_, ?_⟩
  · intro cfg count e
    exact ⟨by rw [loop_body_sends]; rfl, loop_body_warnings cfg count e⟩
  · intro cfg ticks hF hlen hfail
    have hne : ticks ≠ [] := by
      intro h
      rw [h] at hlen
      simp at hlen
    refine ⟨?_, ?_, ?_, ?_⟩
    · rw [hwarn, List.filter_eq_self.mpr, hlen]
      intro e he
      simpa using hfail e he
    · exact main_loop_one_summary cfg ticks hne (by rw [hF, hlen]) (by rw [hF]; norm_num)
    · rw [hsend, hlen]
    · rw [main_loop_count_eq, hlen]
      norm_num
  · intro cfg ticks hF hlen hok
    have hne : ticks ≠ [] := by
      intro h
      rw [h] at hlen
      simp at hlen
    refine ⟨?_, ?_, ?_, ?_⟩
    · apply List.eq_nil_of_length_eq_zero
      rw [hwarn]
      apply List.length_eq_zero.mpr
      apply List.filter_eq_nil_iff.mpr
      intro e he
      simp [hok e he]
    · exact main_loop_one_summary cfg ticks hne (by rw [hF, hlen]; norm_num) (by rw [hF]; norm_num)
    · rw [hsend, hlen]
    · rw [main_loop_count_eq, hlen]
      norm_num

/-- Witness for `one_send_per_tick`: 1000 iterations at 100 Hz whose sends all return
`ESP_ERR_NO_MEM`. -/
theorem one_send_per_tick_witness :
    ((main_loop (shipped idf_target.esp32 (ESP_IDF_VERSION_VAL 5 3 0))
        (List.replicate 1000 ⟨ESP_ERR_NO_MEM, 0, 0⟩)).trace.filter Event.is_warning).length
      = 1000 :=
  (one_send_per_tick.2.2.1 (shipped idf_target.esp32 (ESP_IDF_VERSION_VAL 5 3 0))
    (List.replicate 1000 ⟨ESP_ERR_NO_MEM, 0, 0⟩) rfl (List.length_replicate _ _)
    (by
      intro e he
      rw [List.eq_of_mem_replicate he]
      decide)).1

/-! ## The secondary channel -/

theorem mem_invoke {e : Event} {r : Run} {c : Call} {ret : esp_err_t}
    (h : e ∈ (invoke r c ret).trace) : e ∈ r.trace ∨ e = Event.call c ret := by
  rw [invoke_trace] at h
  split_ifs at h
  · exact Or.inl h
  · simpa using h

theorem mem_checked {e : Event} {r : Run} {c : Call} {ret : esp_err_t}
    (h : e ∈ (checked r c ret).trace) : e ∈ r.trace ∨ e = Event.call c ret := by
  rw [checked_trace] at h
  split_ifs at h
  · exact Or.inl h
  · simpa using h

theorem mem_wifi_init_bandwidth {e : Event} {cfg : BuildConfig} {P : Platform} {r : Run}
    (h : e ∈ (wifi_init_bandwidth cfg P r).trace) :
    e ∈ r.trace ∨ ∀ p s ret, e ≠ Event.call (Call.esp_wifi_set_channel p s) ret := by
  unfold wifi_init_bandwidth at h
  split_ifs at h
  · rcases mem_checked h with h | h
    · rcases mem_checked h with h | h
      · rcases mem_invoke h with h | h
        · rcases mem_checked h with h | h
          · exact Or.inl h
          · exact Or.inr (by simp [h])
        · exact Or.inr (by simp [h])
      · exact Or.inr (by simp [h])
    · exact Or.inr (by simp [h])
  · rcases mem_checked h with h | h
    · rcases mem_checked h with h | h
      · rcases mem_invoke h with h | h
        · rcases mem_checked h with h | h
          · exact Or.inl h
          · exact Or.inr (by simp [h])
        · exact Or.inr (by simp [h])
      · exact Or.inr (by simp [h])
    · exact Or.inr (by simp [h])
  · rcases mem_checked h with h | h
    · rcases mem_checked h with h | h
      · exact Or.inl h
      · exact Or.inr (by simp [h])
    · exact Or.inr (by simp [h])

theorem wifi_init_set_channel_call {cfg : BuildConfig} {P : Platform} {r : Run}
    {p : Nat} {s : wifi_second_chan_t} {ret : esp_err_t}
    (h : Event.call (Call.esp_wifi_set_channel p s) ret ∈ (wifi_init cfg P r).trace)
    (hr : Event.call (Call.esp_wifi_set_channel p s) ret ∉ r.trace) :
    p = CONFIG_WIFI_CHANNEL ∧ s = wifi_init_second_chan cfg := by
  unfold wifi_init at h
  rcases mem_checked h with h | h
  · rcases mem_checked h with h | h
    · rcases mem_checked h with h | h
      · rcases mem_wifi_init_bandwidth h with h | h
        · rcases mem_checked h with h | h
          · rcases mem_checked h with h | h
            · rcases mem_checked h with h | h
              · rcases mem_checked h with h | h
                · rcases mem_checked h with h | h
                  · exact absurd h hr
                  · simp at h
                · simp at h
              · simp at h
            · simp at h
          · simp at h
        · exact absurd rfl (h p s ret)
      · simp at h
    · simp only [Event.call.injEq, Call.esp_wifi_set_channel.injEq] at h
      exact ⟨h.1.1, h.1.2⟩
  · simp at h

/-- C5: whatever the target and the bandwidth selection, a channel-setting call made by
`wifi_init` names channel 11 with secondary channel "none" if and only if the selected
bandwidth is HT20, and "below" otherwise; the secondary channel is determined by the
bandwidth selection alone (the same on every target), and is "below" for the shipped
HT40 setting. -/
theorem second_chan_none_iff_ht20 (cfg : BuildConfig) (P : Platform)
    (p : Nat) (s : wifi_second_chan_t) (ret : esp_err_t)
    (h : Event.call (Call.esp_wifi_set_channel p s) ret ∈ (wifi_init cfg P Run.start).trace) :
    p = 11
    ∧ (s = wifi_second_chan_t.WIFI_SECOND_CHAN_NONE
        ↔ cfg.CONFIG_WIFI_BANDWIDTH = wifi_bandwidth_t.WIFI_BW_HT20)
    ∧ (cfg.CONFIG_WIFI_BANDWIDTH ≠ wifi_bandwidth_t.WIFI_BW_HT20
        → s = wifi_second_chan_t.WIFI_SECOND_CHAN_BELOW)
    ∧ s = wifi_init_second_chan cfg
    ∧ (∀ cfg2 : BuildConfig, cfg2.CONFIG_WIFI_BANDWIDTH = cfg.CONFIG_WIFI_BANDWIDTH
        → wifi_init_second_chan cfg2 = wifi_init_second_chan cfg)
    ∧ (∀ (target : idf_target) (version : Nat),
        wifi_init_second_chan (shipped target version)
          = wifi_second_chan_t.WIFI_SECOND_CHAN_BELOW) := by
  obtain ⟨hp, hs⟩ := wifi_init_set_channel_call h (by simp [Run.start])
  refine ⟨hp, ?_, ?_, hs, ?_, ?_⟩
  · rw [hs, wifi_init_second_chan_eq]
    unfold second_chan_of_bandwidth
    split_ifs with hb <;> simp [hb]
  · intro hb
    rw [hs, wifi_init_second_chan_eq]
    simp [second_chan_of_bandwidth, hb]
  · intro cfg2 h2
    rw [wifi_init_second_chan_eq, wifi_init_second_chan_eq, h2]
  · intro target version
    rw [wifi_init_second_chan_eq]
    simp [second_chan_of_bandwidth, shipped]

/-- Witness for `second_chan_none_iff_ht20`: the shipped build for the ESP32-C5 with every
call succeeding sets channel 11 with the secondary channel below. -/
theorem second_chan_none_iff_ht20_witness :
    Event.call (Call.esp_wifi_set_channel 11 wifi_second_chan_t.WIFI_SECOND_CHAN_BELOW) ESP_OK
        ∈ (wifi_init (shipped idf_target.esp32c5 (ESP_IDF_VERSION_VAL 5 5 0)) Platform.ok
            Run.start).trace
    ∧ (wifi_second_chan_t.WIFI_SECOND_CHAN_BELOW = wifi_second_chan_t.WIFI_SECOND_CHAN_NONE
        ↔ (shipped idf_target.esp32c5 (ESP_IDF_VERSION_VAL 5 5 0)).CONFIG_WIFI_BANDWIDTH
            = wifi_bandwidth_t.WIFI_BW_HT20) :=
  ⟨by decide,
   (second_chan_none_iff_ht20 (shipped idf_target.esp32c5 (ESP_IDF_VERSION_VAL 5 5 0))
      Platform.ok 11 wifi_second_chan_t.WIFI_SECOND_CHAN_BELOW ESP_OK (by decide)).2.1⟩

/-! ## Failing start-up calls -/

/-- C6 at the failing input: on the ESP32-C5 build with `esp_wifi_set_band_mode`
returning `ESP_FAIL` and every other call succeeding, `app_main` does not halt; the
protocol and bandwidth calls and all later configuration calls follow, and the loop
sends. -/
theorem band_mode_error_not_checked :
    (app_main (shipped idf_target.esp32c5 (ESP_IDF_VERSION_VAL 5 5 0))
        { Platform.ok with esp_wifi_set_band_mode := ESP_FAIL } [⟨ESP_OK, 0, 0⟩]).halted = false
    ∧ (app_main (shipped idf_target.esp32c5 (ESP_IDF_VERSION_VAL 5 5 0))
        { Platform.ok with esp_wifi_set_band_mode := ESP_FAIL } [⟨ESP_OK, 0, 0⟩]).trace
      = [Event.call Call.nvs_flash_init ESP_OK,
         Event.call Call.esp_event_loop_create_default ESP_OK,
         Event.call Call.esp_netif_init ESP_OK,
         Event.call Call.esp_wifi_init ESP_OK,
         Event.call (Call.esp_wifi_set_mode wifi_mode_t.WIFI_MODE_STA) ESP_OK,
         Event.call (Call.esp_wifi_set_storage wifi_storage_t.WIFI_STORAGE_RAM) ESP_OK,
         Event.call Call.esp_wifi_start ESP_OK,
         Event.call (Call.esp_wifi_set_band_mode wifi_band_mode_t.WIFI_BAND_MODE_2G_ONLY)
           ESP_FAIL,
         Event.call (Call.esp_wifi_set_protocols wifi_interface_t.WIFI_IF_STA 4 4) ESP_OK,
         Event.call (Call.esp_wifi_set_bandwidths wifi_interface_t.WIFI_IF_STA
           (some wifi_bandwidth_t.WIFI_BW_HT40) (some wifi_bandwidth_t.WIFI_BW_HT40)) ESP_OK,
         Event.call (Call.esp_wifi_set_ps wifi_ps_type_t.WIFI_PS_NONE) ESP_OK,
         Event.call (Call.esp_wifi_set_channel 11 wifi_second_chan_t.WIFI_SECOND_CHAN_BELOW)
           ESP_OK,
         Event.call (Call.esp_wifi_set_mac wifi_interface_t.WIFI_IF_STA [0x1a, 0, 0, 0, 0, 0])
           ESP_OK,
         Event.call Call.esp_now_init ESP_OK,
         Event.call (Call.esp_now_set_pmk "pmk1234567890123") ESP_OK,
         Event.call (Call.esp_now_add_peer
           ⟨[0xff, 0xff, 0xff, 0xff, 0xff, 0xff], 11, wifi_interface_t.WIFI_IF_STA, false⟩)
           ESP_OK,
         Event.call (Call.esp_now_set_peer_rate_config [0xff, 0xff, 0xff, 0xff, 0xff, 0xff]
           ⟨wifi_phy_mode_t.WIFI_PHY_MODE_HT40, wifi_phy_rate_t.WIFI_PHY_RATE_MCS0_LGI,
            false, false⟩) ESP_OK,
         Event.ESP_LOGI_banner,
         Event.call (Call.esp_now_send [0xff, 0xff, 0xff, 0xff, 0xff, 0xff] [0, 0, 0, 0] 4)
           ESP_OK,
         Event.ESP_LOGI_sent 0 0,
         Event.usleep 10000] := by
  constructor <;> decide

/-- Every call that is passed to `ESP_ERROR_CHECK` stops the firmware when it fails: a run
that reaches the loop had storage set-up, every checked call of `wifi_init` on its target
and every call of `esp_now_init_config` return `ESP_OK`. -/
theorem running_means_checks_passed (cfg : BuildConfig) (P : Platform) (ticks : List TickEnv)
    (h : (app_main cfg P ticks).halted = false) :
    nvs_ok P ∧ wifi_ok cfg P ∧ esp_now_ok P := by
  have hs : (app_main_setup cfg P).halted = false := by
    unfold app_main at h
    by_cases hh : (app_main_setup cfg P).halted = true
    · simp only [hh, if_true] at h
      exact absurd h (by decide)
    · simpa using hh
  unfold nvs_ok wifi_ok wifi_ok_before_channel esp_now_ok
  unfold app_main_setup at hs
  generalize nvs_init P Run.start = r0 at hs ⊢
  cases hc5 : profile_c5 cfg <;> cases hc6 : profile_c6 cfg <;>
    simp only [wifi_init, wifi_init_bandwidth, esp_now_init_config, hc5, hc6, checked_halted,
      invoke_halted, emit_halted, Bool.or_eq_false_iff, bne_eq_false_iff_eq, if_true, if_false,
      Bool.false_eq_true, and_assoc] at hs <;>
    simp [hs]

theorem nvs_init_trace_cases (P : Platform) :
    (nvs_init P Run.start).trace = [Event.call Call.nvs_flash_init P.nvs_flash_init]
    ∨ (nvs_init P Run.start).trace
        = [Event.call Call.nvs_flash_init P.nvs_flash_init,
           Event.call Call.nvs_flash_erase P.nvs_flash_erase]
    ∨ (nvs_init P Run.start).trace
        = [Event.call Call.nvs_flash_init P.nvs_flash_init,
           Event.call Call.nvs_flash_erase P.nvs_flash_erase,
           Event.call Call.nvs_flash_init P.nvs_flash_init_again] := by
  by_cases hc : (P.nvs_flash_init == ESP_ERR_NVS_NO_FREE_PAGES
      || P.nvs_flash_init == ESP_ERR_NVS_NEW_VERSION_FOUND) = true
  · by_cases he : P.nvs_flash_erase = ESP_OK
    · right; right
      simp only [nvs_init, hc]
      simp [Run.start, he]
    · right; left
      simp only [nvs_init, hc]
      simp [Run.start, he]
  · left
    simp only [nvs_init, hc]
    simp [Run.start]

theorem nvs_init_no_later_calls (P : Platform) :
    (nvs_init P Run.start).trace.filter Event.is_set_mac = []
    ∧ (calls (nvs_init P Run.start).trace).filter Call.is_esp_now = []
    ∧ (nvs_init P Run.start).trace.filter Event.is_send = []
    ∧ (calls (nvs_init P Run.start).trace).filter Call.is_set_channel = [] := by
  rcases nvs_init_trace_cases P with h | h | h <;> rw [h] <;>
    simp [calls, Event.to_call, Event.is_set_mac, Call.is_esp_now, Event.is_send,
      Call.is_set_channel]

/-- C7: on every target, when storage set-up and every call of `wifi_init` before
`esp_wifi_set_channel` succeeded and `esp_wifi_set_channel` returns an error, `app_main`
halts with that call as its last event: the hardware address is not set, no ESP-NOW call
(init, key, peer, rate, send) is made, and however long one waits no frame is sent. -/
theorem set_channel_failure_halts (cfg : BuildConfig) (P : Platform) (ticks : List TickEnv)
    (hnvs : nvs_ok P) (hwifi : wifi_ok_before_channel cfg P)
    (hchan : P.esp_wifi_set_channel ≠ ESP_OK) :
    (app_main cfg P ticks).halted = true
    ∧ (app_main cfg P ticks).trace.getLast?
        = some (Event.call (Call.esp_wifi_set_channel 11 (wifi_init_second_chan cfg))
            P.esp_wifi_set_channel)
    ∧ (app_main cfg P ticks).trace.filter Event.is_set_mac = []
    ∧ (calls (app_main cfg P ticks).trace).filter Call.is_esp_now = []
    ∧ ((app_main cfg P ticks).trace.filter Event.is_send).length = 0 := by
  obtain ⟨hmac, hnow, hsend, -⟩ := nvs_init_no_later_calls P
  unfold nvs_ok at hnvs
  obtain ⟨h1, h2, h3, h4, h5, h6, h7, h8⟩ := hwifi
  unfold app_main app_main_setup
  generalize nvs_init P Run.start = r0 at hnvs hmac hnow hsend
  unfold calls at hnow ⊢
  cases hc5 : profile_c5 cfg <;> cases hc6 : profile_c6 cfg <;>
    simp [hc5, hc6] at h7 <;>
    simp [wifi_init, wifi_init_bandwidth, esp_now_init_config, hnvs, h1, h2, h3, h4, h5, h6,
      h7, h8, hchan, hc5, hc6, hmac, hnow, hsend, List.filter_append, List.filterMap_append,
      Event.is_set_mac, Event.is_send, Call.is_esp_now, Event.to_call, CONFIG_WIFI_CHANNEL,
      List.getLast?_append]

/-- Witness for `set_channel_failure_halts`: the shipped ESP32 build where only
`esp_wifi_set_channel` fails. -/
theorem set_channel_failure_halts_witness :
    (app_main (shipped idf_target.esp32 (ESP_IDF_VERSION_VAL 5 3 0))
        { Platform.ok with esp_wifi_set_channel := ESP_FAIL }
        (List.replicate 5 ⟨ESP_OK, 0, 0⟩)).halted = true :=
  (set_channel_failure_halts (shipped idf_target.esp32 (ESP_IDF_VERSION_VAL 5 3 0))
    { Platform.ok with esp_wifi_set_channel := ESP_FAIL } (List.replicate 5 ⟨ESP_OK, 0, 0⟩)
    (by decide) (by decide) (by decide)).1

/-! ## Storage set-up -/

/-- C8, as the claim states it, fails when the first `nvs_flash_init` returns
`ESP_ERR_NVS_NO_FREE_PAGES`: storage is erased, set up again, and the firmware goes on to
configure the radio and to send. -/
theorem nvs_no_free_pages_is_recovered :
    (app_main (shipped idf_target.esp32 (ESP_IDF_VERSION_VAL 5 3 0))
        { Platform.ok with nvs_flash_init := ESP_ERR_NVS_NO_FREE_PAGES }
        [⟨ESP_OK, 0, 0⟩]).halted = false
    ∧ calls (app_main (shipped idf_target.esp32 (ESP_IDF_VERSION_VAL 5 3 0))
        { Platform.ok with nvs_flash_init := ESP_ERR_NVS_NO_FREE_PAGES }
        [⟨ESP_OK, 0, 0⟩]).trace
      = [Call.nvs_flash_init, Call.nvs_flash_erase, Call.nvs_flash_init,
         Call.esp_event_loop_create_default, Call.esp_netif_init, Call.esp_wifi_init,
         Call.esp_wifi_set_mode wifi_mode_t.WIFI_MODE_STA,
         Call.esp_wifi_set_storage wifi_storage_t.WIFI_STORAGE_RAM,
         Call.esp_wifi_set_bandwidth wifi_interface_t.WIFI_IF_STA
           wifi_bandwidth_t.WIFI_BW_HT40,
         Call.esp_wifi_start,
         Call.esp_wifi_set_ps wifi_ps_type_t.WIFI_PS_NONE,
         Call.esp_wifi_set_channel 11 wifi_second_chan_t.WIFI_SECOND_CHAN_BELOW,
         Call.esp_wifi_set_mac wifi_interface_t.WIFI_IF_STA [0x1a, 0, 0, 0, 0, 0],
         Call.esp_now_init,
         Call.esp_now_set_pmk "pmk1234567890123",
         Call.esp_now_add_peer
           ⟨[0xff, 0xff, 0xff, 0xff, 0xff, 0xff], 11, wifi_interface_t.WIFI_IF_STA, false⟩,
         Call.esp_now_set_peer_rate_config [0xff, 0xff, 0xff, 0xff, 0xff, 0xff]
           ⟨wifi_phy_mode_t.WIFI_PHY_MODE_HT40, wifi_phy_rate_t.WIFI_PHY_RATE_MCS0_LGI,
            false, false⟩,
         Call.esp_now_send [0xff, 0xff, 0xff, 0xff, 0xff, 0xff] [0, 0, 0, 0] 4] := by
  constructor <;> decide

theorem halted_run_is_final (cfg : BuildConfig) (P : Platform) (ticks : List TickEnv)
    (r : Run) (h : r.halted = true) :
    (if (emit (esp_now_init_config P peer (wifi_init cfg P r)) Event.ESP_LOGI_banner).halted
        then emit (esp_now_init_config P peer (wifi_init cfg P r)) Event.ESP_LOGI_banner
        else ⟨(emit (esp_now_init_config P peer (wifi_init cfg P r))
                Event.ESP_LOGI_banner).trace ++ (main_loop cfg ticks).trace, false⟩)
      = r := by
  obtain ⟨t, hl⟩ := r
  simp only at h
  subst h
  cases hc5 : profile_c5 cfg <;> cases hc6 : profile_c6 cfg <;>
    simp [wifi_init, wifi_init_bandwidth, esp_now_init_config, hc5, hc6, emit, checked,
      invoke, ESP_ERROR_CHECK]

/-- C8, amended: when the first `nvs_flash_init` returns an error other than
`ESP_ERR_NVS_NO_FREE_PAGES` and `ESP_ERR_NVS_NEW_VERSION_FOUND`, `app_main` halts at
once: that call is its only event (no erase, no second attempt, no radio configuration,
peer registration or send).  For those two codes it erases the storage and tries once
more, and halts if the erase or the second attempt fails. -/
theorem nvs_init_failure (cfg : BuildConfig) (P : Platform) (ticks : List TickEnv)
    (h : P.nvs_flash_init ≠ ESP_OK) :
    (P.nvs_flash_init ≠ ESP_ERR_NVS_NO_FREE_PAGES →
      P.nvs_flash_init ≠ ESP_ERR_NVS_NEW_VERSION_FOUND →
        app_main cfg P ticks = ⟨[Event.call Call.nvs_flash_init P.nvs_flash_init], true⟩)
    ∧ (P.nvs_flash_init = ESP_ERR_NVS_NO_FREE_PAGES
        ∨ P.nvs_flash_init = ESP_ERR_NVS_NEW_VERSION_FOUND →
        (P.nvs_flash_erase ≠ ESP_OK →
          app_main cfg P ticks
            = ⟨[Event.call Call.nvs_flash_init P.nvs_flash_init,
                Event.call Call.nvs_flash_erase P.nvs_flash_erase], true⟩)
        ∧ (P.nvs_flash_erase = ESP_OK → P.nvs_flash_init_again ≠ ESP_OK →
          app_main cfg P ticks
            = ⟨[Event.call Call.nvs_flash_init P.nvs_flash_init,
                Event.call Call.nvs_flash_erase P.nvs_flash_erase,
                Event.call Call.nvs_flash_init P.nvs_flash_init_again], true⟩)
        ∧ (P.nvs_flash_erase = ESP_OK → P.nvs_flash_init_again = ESP_OK →
          nvs_init P Run.start
            = ⟨[Event.call Call.nvs_flash_init P.nvs_flash_init,
                Event.call Call.nvs_flash_erase P.nvs_flash_erase,
                Event.call Call.nvs_flash_init P.nvs_flash_init_again], false⟩)) := by
  refine ⟨?_, ?_⟩
  · intro h1 h2
    have hr : nvs_init P Run.start
        = ⟨[Event.call Call.nvs_flash_init P.nvs_flash_init], true⟩ := by
      simp [nvs_init, Run.start, h, h1, h2, invoke, ESP_ERROR_CHECK]
    unfold app_main app_main_setup
    simp only []
    rw [hr]
    exact halted_run_is_final cfg P ticks _ rfl
  · intro hcode
    have hc : (P.nvs_flash_init == ESP_ERR_NVS_NO_FREE_PAGES
        || P.nvs_flash_init == ESP_ERR_NVS_NEW_VERSION_FOUND) = true := by
      rcases hcode with hcode | hcode <;> simp [hcode]
    refine ⟨?_, ?_, ?_⟩
    · intro he
      have hr : nvs_init P Run.start
          = ⟨[Event.call Call.nvs_flash_init P.nvs_flash_init,
              Event.call Call.nvs_flash_erase P.nvs_flash_erase], true⟩ := by
        simp only [nvs_init, hc]
        simp [Run.start, he, invoke, ESP_ERROR_CHECK, checked]
      unfold app_main app_main_setup
      simp only []
      rw [hr]
      exact halted_run_is_final cfg P ticks _ rfl
    · intro he hi
      have hr : nvs_init P Run.start
          = ⟨[Event.call Call.nvs_flash_init P.nvs_flash_init,
              Event.call Call.nvs_flash_erase P.nvs_flash_erase,
              Event.call Call.nvs_flash_init P.nvs_flash_init_again], true⟩ := by
        simp only [nvs_init, hc]
        simp [Run.start, he, hi, invoke, ESP_ERROR_CHECK, checked]
      unfold app_main app_main_setup
      simp only []
      rw [hr]
      exact halted_run_is_final cfg P ticks _ rfl
    · intro he hi
      simp only [nvs_init, hc]
      simp [Run.start, he, hi, invoke, ESP_ERROR_CHECK, checked]

/-- Witness for `nvs_init_failure`: the first `nvs_flash_init` returns `ESP_FAIL`. -/
theorem nvs_init_failure_witness :
    app_main (shipped idf_target.esp32 (ESP_IDF_VERSION_VAL 5 3 0))
        { Platform.ok with nvs_flash_init := ESP_FAIL } [⟨ESP_OK, 0, 0⟩]
      = ⟨[Event.call Call.nvs_flash_init ESP_FAIL], true⟩ :=
  (nvs_init_failure (shipped idf_target.esp32 (ESP_IDF_VERSION_VAL 5 3 0))
    { Platform.ok with nvs_flash_init := ESP_FAIL } [⟨ESP_OK, 0, 0⟩] (by decide)).1
    (by decide) (by decide)

/-! ## The order of the configuration steps -/

theorem foldl_loop_calls (cfg : BuildConfig) (Q : Call → Prop)
    (hQ : ∀ count, Q (Call.esp_now_send peer.peer_addr (uint32_bytes count) sizeof_count))
    (ticks : List TickEnv) (s : LoopState) (hs : ∀ c ∈ calls s.trace, Q c) :
    ∀ c ∈ calls (ticks.foldl (loop_iteration cfg) s).trace, Q c := by
  induction ticks generalizing s with
  | nil => simpa using hs
  | cons e rest ih =>
    rw [List.foldl_cons]
    apply ih
    intro c hc
    simp only [loop_iteration, calls, List.filterMap_append, List.mem_append] at hc
    rcases hc with hc | hc
    · exact hs c hc
    · unfold loop_body at hc
      by_cases h1 : (e.ret != ESP_OK) = true <;>
        by_cases h2 : (s.count % (cfg.CONFIG_SEND_FREQUENCY * 10) == 0) = true <;>
        simp [h1, h2, Event.to_call] at hc <;>
        (rw [hc]; exact hQ _)

theorem main_loop_calls_are_sends (cfg : BuildConfig) (ticks : List TickEnv) :
    ∀ c ∈ calls (main_loop cfg ticks).trace,
      ∃ count, c = Call.esp_now_send peer.peer_addr (uint32_bytes count) sizeof_count := by
  unfold main_loop
  exact foldl_loop_calls cfg
    (fun c => ∃ count, c = Call.esp_now_send peer.peer_addr (uint32_bytes count) sizeof_count)
    (fun count => ⟨count, rfl⟩) ticks ⟨0, []⟩ (by simp [calls])

/-- C9, as the claim states it, fails on the ESP32-C5: in a fully successful run the radio
is started before the protocol and bandwidth selection is applied. -/
theorem c5_starts_radio_before_bandwidth :
    calls (wifi_init (shipped idf_target.esp32c5 (ESP_IDF_VERSION_VAL 5 5 0)) Platform.ok
        Run.start).trace
      = [Call.esp_event_loop_create_default, Call.esp_netif_init, Call.esp_wifi_init,
         Call.esp_wifi_set_mode wifi_mode_t.WIFI_MODE_STA,
         Call.esp_wifi_set_storage wifi_storage_t.WIFI_STORAGE_RAM,
         Call.esp_wifi_start,
         Call.esp_wifi_set_band_mode wifi_band_mode_t.WIFI_BAND_MODE_2G_ONLY,
         Call.esp_wifi_set_protocols wifi_interface_t.WIFI_IF_STA 4 4,
         Call.esp_wifi_set_bandwidths wifi_interface_t.WIFI_IF_STA
           (some wifi_bandwidth_t.WIFI_BW_HT40) (some wifi_bandwidth_t.WIFI_BW_HT40),
         Call.esp_wifi_set_ps wifi_ps_type_t.WIFI_PS_NONE,
         Call.esp_wifi_set_channel 11 wifi_second_chan_t.WIFI_SECOND_CHAN_BELOW,
         Call.esp_wifi_set_mac wifi_interface_t.WIFI_IF_STA [0x1a, 0, 0, 0, 0, 0]]
    ∧ ¬ ((calls (wifi_init (shipped idf_target.esp32c5 (ESP_IDF_VERSION_VAL 5 5 0))
            Platform.ok Run.start).trace).indexOf
          (Call.esp_wifi_set_bandwidths wifi_interface_t.WIFI_IF_STA
            (some wifi_bandwidth_t.WIFI_BW_HT40) (some wifi_bandwidth_t.WIFI_BW_HT40))
        < (calls (wifi_init (shipped idf_target.esp32c5 (ESP_IDF_VERSION_VAL 5 5 0))
            Platform.ok Run.start).trace).indexOf Call.esp_wifi_start) := by
  constructor <;> decide

/-- C9, amended: a fully successful run of `app_main` makes its platform calls in this
order: storage set-up; event loop and network interface; radio init, station mode, RAM
storage; then on the ESP32-C5, and on the ESP32-C6 with ESP-IDF 5.4 or later and the
ESP32-C61, radio start followed by band mode, protocols and bandwidths for the station
interface, and on every other target the bandwidth for the station interface followed by
radio start; power save off; channel 11 with the derived secondary channel; the fixed
hardware address; ESP-NOW init, key, broadcast peer and its rate; and only then the
sends of the loop. -/
theorem successful_run_call_order (cfg : BuildConfig) (P : Platform) (ticks : List TickEnv)
    (hnvs : nvs_ok P) (hwifi : wifi_ok cfg P) (hnow : esp_now_ok P) :
    (app_main cfg P ticks).halted = false
    ∧ calls (app_main cfg P ticks).trace
      = calls (nvs_init P Run.start).trace
        ++ [Call.esp_event_loop_create_default, Call.esp_netif_init, Call.esp_wifi_init,
            Call.esp_wifi_set_mode wifi_mode_t.WIFI_MODE_STA,
            Call.esp_wifi_set_storage wifi_storage_t.WIFI_STORAGE_RAM]
        ++ (if profile_c5 cfg then
              [Call.esp_wifi_start,
               Call.esp_wifi_set_band_mode wifi_band_mode_t.WIFI_BAND_MODE_2G_ONLY,
               Call.esp_wifi_set_protocols wifi_interface_t.WIFI_IF_STA 4 4,
               Call.esp_wifi_set_bandwidths wifi_interface_t.WIFI_IF_STA
                 (some cfg.CONFIG_WIFI_BANDWIDTH) (some cfg.CONFIG_WIFI_BANDWIDTH)]
            else if profile_c6 cfg then
              [Call.esp_wifi_start,
               Call.esp_wifi_set_band_mode wifi_band_mode_t.WIFI_BAND_MODE_2G_ONLY,
               Call.esp_wifi_set_protocols wifi_interface_t.WIFI_IF_STA 4 0,
               Call.esp_wifi_set_bandwidths wifi_interface_t.WIFI_IF_STA
                 (some cfg.CONFIG_WIFI_BANDWIDTH) none]
            else
              [Call.esp_wifi_set_bandwidth wifi_interface_t.WIFI_IF_STA
                 cfg.CONFIG_WIFI_BANDWIDTH,
               Call.esp_wifi_start])
        ++ [Call.esp_wifi_set_ps wifi_ps_type_t.WIFI_PS_NONE,
            Call.esp_wifi_set_channel 11
              (second_chan_of_bandwidth cfg.CONFIG_WIFI_BANDWIDTH),
            Call.esp_wifi_set_mac wifi_interface_t.WIFI_IF_STA [0x1a, 0, 0, 0, 0, 0]]
        ++ [Call.esp_now_init,
            Call.esp_now_set_pmk "pmk1234567890123",
            Call.esp_now_add_peer
              ⟨[0xff, 0xff, 0xff, 0xff, 0xff, 0xff], 11, wifi_interface_t.WIFI_IF_STA, false⟩,
            Call.esp_now_set_peer_rate_config [0xff, 0xff, 0xff, 0xff, 0xff, 0xff]
              ⟨wifi_phy_mode_t.WIFI_PHY_MODE_HT40, wifi_phy_rate_t.WIFI_PHY_RATE_MCS0_LGI,
               false, false⟩]
        ++ calls (main_loop cfg ticks).trace
    ∧ (calls (nvs_init P Run.start).trace).filter Call.is_set_channel = []
    ∧ (calls (nvs_init P Run.start).trace).filter Call.is_esp_now = []
    ∧ (∀ c ∈ calls (main_loop cfg ticks).trace,
        ∃ count, c = Call.esp_now_send [0xff, 0xff, 0xff, 0xff, 0xff, 0xff]
          (uint32_bytes count) 4) := by
  obtain ⟨-, hnvsnow, -, hnvschan⟩ := nvs_init_no_later_calls P
  refine ⟨?_, ?_, hnvschan, hnvsnow, main_loop_calls_are_sends cfg ticks⟩
  · unfold nvs_ok at hnvs
    obtain ⟨⟨h1, h2, h3, h4, h5, h6, h7, h8⟩, h9, h10⟩ := hwifi
    obtain ⟨g1, g2, g3, g4⟩ := hnow
    unfold app_main app_main_setup
    generalize nvs_init P Run.start = r0 at hnvs
    cases hc5 : profile_c5 cfg <;> cases hc6 : profile_c6 cfg <;>
      simp [hc5, hc6] at h7 <;>
      simp [wifi_init, wifi_init_bandwidth, esp_now_init_config, hnvs, h1, h2, h3, h4, h5, h6,
        h7, h8, h9, h10, g1, g2, g3, g4, hc5, hc6]
  · unfold nvs_ok at hnvs
    obtain ⟨⟨h1, h2, h3, h4, h5, h6, h7, h8⟩, h9, h10⟩ := hwifi
    obtain ⟨g1, g2, g3, g4⟩ := hnow
    unfold app_main app_main_setup
    generalize nvs_init P Run.start = r0 at hnvs
    unfold calls
    cases hc5 : profile_c5 cfg <;> cases hc6 : profile_c6 cfg <;>
      simp [hc5, hc6] at h7 <;>
      simp [wifi_init, wifi_init_bandwidth, esp_now_init_config, hnvs, h1, h2, h3, h4, h5, h6,
        h7, h8, h9, h10, g1, g2, g3, g4, hc5, hc6, List.filterMap_append, Event.to_call,
        wifi_init_second_chan_eq, CONFIG_WIFI_CHANNEL, CONFIG_WIFI_BAND_MODE, ESP_IF_WIFI_STA,
        CONFIG_WIFI_2G_PROTOCOL, WIFI_PROTOCOL_11N, CONFIG_CSI_SEND_MAC, peer, rate_config,
        CONFIG_ESP_NOW_PHYMODE, CONFIG_ESP_NOW_RATE]

/-- Witness for `successful_run_call_order`: the shipped ESP32-C6 build on ESP-IDF 5.4
with every call succeeding. -/
theorem successful_run_call_order_witness :
    (app_main (shipped idf_target.esp32c6 (ESP_IDF_VERSION_VAL 5 4 0)) Platform.ok
        [⟨ESP_OK, 0, 0⟩, ⟨ESP_FAIL, 0, 0⟩]).halted = false :=
  (successful_run_call_order (shipped idf_target.esp32c6 (ESP_IDF_VERSION_VAL 5 4 0))
    Platform.ok [⟨ESP_OK, 0, 0⟩, ⟨ESP_FAIL, 0, 0⟩] (by decide) (by decide) (by decide)).1

/-! ## The hardware address -/

theorem sta_mac_append (factory : mac_addr) (t1 t2 : List Event) :
    sta_mac factory (t1 ++ t2) = sta_mac (sta_mac factory t1) t2 := by
  induction t1 generalizing factory with
  | nil => rfl
  | cons e rest ih =>
    cases e with
    | call c ret =>
      cases c with
      | esp_wifi_set_mac ifx mac =>
        cases ifx with
        | WIFI_IF_STA =>
          simp only [List.cons_append, sta_mac]
          split_ifs <;> exact ih _
        | WIFI_IF_AP =>
          simp only [List.cons_append, sta_mac]
          exact ih _
      | _ =>
        simp only [List.cons_append, sta_mac]
        exact ih _
    | _ =>
      simp only [List.cons_append, sta_mac]
      exact ih _

theorem sta_mac_of_no_set_mac (factory : mac_addr) (t : List Event)
    (h : t.filter Event.is_set_mac = []) : sta_mac factory t = factory := by
  induction t with
  | nil => rfl
  | cons e rest ih =>
    cases e with
    | call c ret =>
      cases c with
      | esp_wifi_set_mac ifx mac => simp [Event.is_set_mac] at h
      | _ =>
        simp only [sta_mac]
        apply ih
        simpa [Event.is_set_mac] using h
    | _ =>
      simp only [sta_mac]
      apply ih
      simpa [Event.is_set_mac] using h

theorem foldl_loop_no_set_mac (cfg : BuildConfig) (ticks : List TickEnv) (s : LoopState) :
    (ticks.foldl (loop_iteration cfg) s).trace.filter Event.is_set_mac
      = s.trace.filter Event.is_set_mac := by
  induction ticks generalizing s with
  | nil => rfl
  | cons e rest ih =>
    rw [List.foldl_cons, ih]
    simp only [loop_iteration, List.filter_append, loop_body]
    by_cases h1 : (e.ret != ESP_OK) = true <;>
      by_cases h2 : (s.count % (cfg.CONFIG_SEND_FREQUENCY * 10) == 0) = true <;>
      simp [h1, h2, Event.is_set_mac]

theorem after_wifi_init_no_set_mac (cfg : BuildConfig) (P : Platform) (ticks : List TickEnv)
    (r : Run) (hr : r.halted = false) :
    ∃ later, (if (emit (esp_now_init_config P peer r) Event.ESP_LOGI_banner).halted
          then emit (esp_now_init_config P peer r) Event.ESP_LOGI_banner
          else ⟨(emit (esp_now_init_config P peer r) Event.ESP_LOGI_banner).trace
                  ++ (main_loop cfg ticks).trace, false⟩ : Run).trace = r.trace ++ later
      ∧ later.filter Event.is_set_mac = [] := by
  have hloop : (main_loop cfg ticks).trace.filter Event.is_set_mac = [] := by
    unfold main_loop
    rw [foldl_loop_no_set_mac]
    rfl
  by_cases g1 : P.esp_now_init = ESP_OK
  · by_cases g2 : P.esp_now_set_pmk = ESP_OK
    · by_cases g3 : P.esp_now_add_peer = ESP_OK
      · by_cases g4 : P.esp_now_set_peer_rate_config = ESP_OK
        · refine ⟨[Event.call Call.esp_now_init P.esp_now_init,
              Event.call (Call.esp_now_set_pmk "pmk1234567890123") P.esp_now_set_pmk,
              Event.call (Call.esp_now_add_peer peer) P.esp_now_add_peer,
              Event.call (Call.esp_now_set_peer_rate_config peer.peer_addr rate_config)
                P.esp_now_set_peer_rate_config,
              Event.ESP_LOGI_banner] ++ (main_loop cfg ticks).trace, ?_, ?_⟩
          · simp [esp_now_init_config, hr, g1, g2, g3, g4]
          · simp [List.filter_append, hloop, Event.is_set_mac]
        · refine ⟨[Event.call Call.esp_now_init P.esp_now_init,
              Event.call (Call.esp_now_set_pmk "pmk1234567890123") P.esp_now_set_pmk,
              Event.call (Call.esp_now_add_peer peer) P.esp_now_add_peer,
              Event.call (Call.esp_now_set_peer_rate_config peer.peer_addr rate_config)
                P.esp_now_set_peer_rate_config], ?_, ?_⟩
          · simp [esp_now_init_config, hr, g1, g2, g3, g4]
          · simp [Event.is_set_mac]
      · refine ⟨[Event.call Call.esp_now_init P.esp_now_init,
            Event.call (Call.esp_now_set_pmk "pmk1234567890123") P.esp_now_set_pmk,
            Event.call (Call.esp_now_add_peer peer) P.esp_now_add_peer], ?_, ?_⟩
        · simp [esp_now_init_config, hr, g1, g2, g3]
        · simp [Event.is_set_mac]
    · refine ⟨[Event.call Call.esp_now_init P.esp_now_init,
          Event.call (Call.esp_now_set_pmk "pmk1234567890123") P.esp_now_set_pmk], ?_, ?_⟩
      · simp [esp_now_init_config, hr, g1, g2]
      · simp [Event.is_set_mac]
  · refine ⟨[Event.call Call.esp_now_init P.esp_now_init], ?_, ?_⟩
    · simp [esp_now_init_config, hr, g1]
    · simp [Event.is_set_mac]

theorem wifi_init_completed (cfg : BuildConfig) (P : Platform) (r : Run)
    (h : (wifi_init cfg P r).halted = false) :
    ∃ before, (wifi_init cfg P r).trace
        = r.trace ++ before
          ++ [Event.call (Call.esp_wifi_set_mac wifi_interface_t.WIFI_IF_STA
                CONFIG_CSI_SEND_MAC) ESP_OK]
      ∧ before.filter Event.is_set_mac = [] := by
  cases hc5 : profile_c5 cfg <;> cases hc6 : profile_c6 cfg <;>
    simp only [wifi_init, wifi_init_bandwidth, hc5, hc6, checked_halted, invoke_halted,
      Bool.or_eq_false_iff, bne_eq_false_iff_eq, if_true, if_false, Bool.false_eq_true,
      and_assoc] at h
  · obtain ⟨hr, h1, h2, h3, h4, h5, h6, h7, h8, h9, h10⟩ := h
    refine ⟨[Event.call Call.esp_event_loop_create_default ESP_OK,
        Event.call Call.esp_netif_init ESP_OK,
        Event.call Call.esp_wifi_init ESP_OK,
        Event.call (Call.esp_wifi_set_mode wifi_mode_t.WIFI_MODE_STA) ESP_OK,
        Event.call (Call.esp_wifi_set_storage wifi_storage_t.WIFI_STORAGE_RAM) ESP_OK,
        Event.call (Call.esp_wifi_set_bandwidth ESP_IF_WIFI_STA cfg.CONFIG_WIFI_BANDWIDTH)
          ESP_OK,
        Event.call Call.esp_wifi_start ESP_OK,
        Event.call (Call.esp_wifi_set_ps wifi_ps_type_t.WIFI_PS_NONE) ESP_OK,
        Event.call (Call.esp_wifi_set_channel CONFIG_WIFI_CHANNEL (wifi_init_second_chan cfg))
          ESP_OK], ?_, ?_⟩
    · simp [wifi_init, wifi_init_bandwidth, hc5, hc6, hr, h1, h2, h3, h4, h5, h6, h7, h8, h9,
        h10]
    · simp [Event.is_set_mac]
  · obtain ⟨hr, h1, h2, h3, h4, h5, h6, h7, h8, h9, h10, h11⟩ := h
    refine ⟨[Event.call Call.esp_event_loop_create_default ESP_OK,
        Event.call Call.esp_netif_init ESP_OK,
        Event.call Call.esp_wifi_init ESP_OK,
        Event.call (Call.esp_wifi_set_mode wifi_mode_t.WIFI_MODE_STA) ESP_OK,
        Event.call (Call.esp_wifi_set_storage wifi_storage_t.WIFI_STORAGE_RAM) ESP_OK,
        Event.call Call.esp_wifi_start ESP_OK,
        Event.call (Call.esp_wifi_set_band_mode CONFIG_WIFI_BAND_MODE) P.esp_wifi_set_band_mode,
        Event.call (Call.esp_wifi_set_protocols ESP_IF_WIFI_STA CONFIG_WIFI_2G_PROTOCOL 0)
          ESP_OK,
        Event.call (Call.esp_wifi_set_bandwidths ESP_IF_WIFI_STA
          (some cfg.CONFIG_WIFI_BANDWIDTH) none) ESP_OK,
        Event.call (Call.esp_wifi_set_ps wifi_ps_type_t.WIFI_PS_NONE) ESP_OK,
        Event.call (Call.esp_wifi_set_channel CONFIG_WIFI_CHANNEL (wifi_init_second_chan cfg))
          ESP_OK], ?_, ?_⟩
    · simp [wifi_init, wifi_init_bandwidth, hc5, hc6, hr, h1, h2, h3, h4, h5, h6, h7, h8, h9,
        h10, h11]
    · simp [Event.is_set_mac]
  · obtain ⟨hr, h1, h2, h3, h4, h5, h6, h7, h8, h9, h10, h11⟩ := h
    refine ⟨[Event.call Call.esp_event_loop_create_default ESP_OK,
        Event.call Call.esp_netif_init ESP_OK,
        Event.call Call.esp_wifi_init ESP_OK,
        Event.call (Call.esp_wifi_set_mode wifi_mode_t.WIFI_MODE_STA) ESP_OK,
        Event.call (Call.esp_wifi_set_storage wifi_storage_t.WIFI_STORAGE_RAM) ESP_OK,
        Event.call Call.esp_wifi_start ESP_OK,
        Event.call (Call.esp_wifi_set_band_mode CONFIG_WIFI_BAND_MODE) P.esp_wifi_set_band_mode,
        Event.call (Call.esp_wifi_set_protocols ESP_IF_WIFI_STA CONFIG_WIFI_2G_PROTOCOL
          CONFIG_WIFI_2G_PROTOCOL) ESP_OK,
        Event.call (Call.esp_wifi_set_bandwidths ESP_IF_WIFI_STA
          (some cfg.CONFIG_WIFI_BANDWIDTH) (some cfg.CONFIG_WIFI_BANDWIDTH)) ESP_OK,
        Event.call (Call.esp_wifi_set_ps wifi_ps_type_t.WIFI_PS_NONE) ESP_OK,
        Event.call (Call.esp_wifi_set_channel CONFIG_WIFI_CHANNEL (wifi_init_second_chan cfg))
          ESP_OK], ?_, ?_⟩
    · simp [wifi_init, wifi_init_bandwidth, hc5, hc6, hr, h1, h2, h3, h4, h5, h6, h7, h8, h9,
        h10, h11]
    · simp [Event.is_set_mac]
  · obtain ⟨hr, h1, h2, h3, h4, h5, h6, h7, h8, h9, h10, h11⟩ := h
    refine ⟨[Event.call Call.esp_event_loop_create_default ESP_OK,
        Event.call Call.esp_netif_init ESP_OK,
        Event.call Call.esp_wifi_init ESP_OK,
        Event.call (Call.esp_wifi_set_mode wifi_mode_t.WIFI_MODE_STA) ESP_OK,
        Event.call (Call.esp_wifi_set_storage wifi_storage_t.WIFI_STORAGE_RAM) ESP_OK,
        Event.call Call.esp_wifi_start ESP_OK,
        Event.call (Call.esp_wifi_set_band_mode CONFIG_WIFI_BAND_MODE) P.esp_wifi_set_band_mode,
        Event.call (Call.esp_wifi_set_protocols ESP_IF_WIFI_STA CONFIG_WIFI_2G_PROTOCOL
          CONFIG_WIFI_2G_PROTOCOL) ESP_OK,
        Event.call (Call.esp_wifi_set_bandwidths ESP_IF_WIFI_STA
          (some cfg.CONFIG_WIFI_BANDWIDTH) (some cfg.CONFIG_WIFI_BANDWIDTH)) ESP_OK,
        Event.call (Call.esp_wifi_set_ps wifi_ps_type_t.WIFI_PS_NONE) ESP_OK,
        Event.call (Call.esp_wifi_set_channel CONFIG_WIFI_CHANNEL (wifi_init_second_chan cfg))
          ESP_OK], ?_, ?_⟩
    · simp [wifi_init, wifi_init_bandwidth, hc5, hc6, hr, h1, h2, h3, h4, h5, h6, h7, h8, h9,
        h10, h11]
    · simp [Event.is_set_mac]

/-- C10: on every target and for every factory address, when `wifi_init` completes its
last event is the successful call setting the station interface address to
1a:00:00:00:00:00, the station address is then that constant, and it still is at any
later point of `app_main` (ESP-NOW set-up, any number of loop iterations): that call is
the only address-setting call of the whole run. -/
theorem sta_mac_is_fixed (cfg : BuildConfig) (P : Platform) (factory : mac_addr)
    (ticks : List TickEnv)
    (h : (wifi_init cfg P (nvs_init P Run.start)).halted = false) :
    (wifi_init cfg P (nvs_init P Run.start)).trace.getLast?
        = some (Event.call (Call.esp_wifi_set_mac wifi_interface_t.WIFI_IF_STA
            [0x1a, 0x00, 0x00, 0x00, 0x00, 0x00]) ESP_OK)
    ∧ sta_mac factory (wifi_init cfg P (nvs_init P Run.start)).trace
        = [0x1a, 0x00, 0x00, 0x00, 0x00, 0x00]
    ∧ sta_mac factory (app_main cfg P ticks).trace = [0x1a, 0x00, 0x00, 0x00, 0x00, 0x00]
    ∧ (app_main cfg P ticks).trace.filter Event.is_set_mac
        = [Event.call (Call.esp_wifi_set_mac wifi_interface_t.WIFI_IF_STA
            [0x1a, 0x00, 0x00, 0x00, 0x00, 0x00]) ESP_OK] := by
  obtain ⟨before, hbefore, hnone⟩ := wifi_init_completed cfg P _ h
  obtain ⟨later, hlater, hlnone⟩ := after_wifi_init_no_set_mac cfg P ticks _ h
  obtain ⟨hnvs, -, -, -⟩ := nvs_init_no_later_calls P
  have hwifi : sta_mac factory (wifi_init cfg P (nvs_init P Run.start)).trace
      = [0x1a, 0x00, 0x00, 0x00, 0x00, 0x00] := by
    rw [hbefore, sta_mac_append]
    simp [sta_mac, CONFIG_CSI_SEND_MAC, ESP_OK]
  have happ : (app_main cfg P ticks).trace
      = (wifi_init cfg P (nvs_init P Run.start)).trace ++ later := hlater
  refine ⟨?_, hwifi, ?_, ?_⟩
  · rw [hbefore]
    simp [CONFIG_CSI_SEND_MAC]
  · rw [happ, sta_mac_append, hwifi]
    exact sta_mac_of_no_set_mac _ _ hlnone
  · rw [happ, hbefore]
    simp [List.filter_append, hnvs, hnone, hlnone, Event.is_set_mac, CONFIG_CSI_SEND_MAC]

/-- Witness for `sta_mac_is_fixed`: the shipped ESP32-C61 build with every call
succeeding, on a device with factory address 24:6f:28:01:02:03. -/
theorem sta_mac_is_fixed_witness :
    sta_mac [0x24, 0x6f, 0x28, 0x01, 0x02, 0x03]
        (app_main (shipped idf_target.esp32c61 (ESP_IDF_VERSION_VAL 5 5 0)) Platform.ok
          [⟨ESP_OK, 0, 0⟩, ⟨ESP_FAIL, 0, 0⟩]).trace
      = [0x1a, 0x00, 0x00, 0x00, 0x00, 0x00] :=
  (sta_mac_is_fixed (shipped idf_target.esp32c61 (ESP_IDF_VERSION_VAL 5 5 0)) Platform.ok
    [0x24, 0x6f, 0x28, 0x01, 0x02, 0x03] [⟨ESP_OK, 0, 0⟩, ⟨ESP_FAIL, 0, 0⟩]
    (by decide)).2.2.1

/-! ## The trace of the loop, tick by tick -/

theorem main_loop_trace_snoc (cfg : BuildConfig) (ticks : List TickEnv) (e : TickEnv) :
    (main_loop cfg (ticks ++ [e])).trace
      = (main_loop cfg ticks).trace ++ loop_body cfg (ticks.length % 2 ^ 32) e := by
  rw [main_loop_snoc]
  simp only [loop_iteration, main_loop_count_eq]

theorem zip_range_snoc (ticks : List TickEnv) (e : TickEnv) :
    (List.range (ticks ++ [e]).length).zip (ticks ++ [e])
      = (List.range ticks.length).zip ticks ++ [(ticks.length, e)] := by
  rw [List.length_append, List.length_singleton, List.range_succ,
    List.zip_append (by simp)]
  rfl

theorem main_loop_sends (cfg : BuildConfig) (ticks : List TickEnv) :
    (main_loop cfg ticks).trace.filter Event.is_send
      = ((List.range ticks.length).zip ticks).map
          (fun p => Event.call (Call.esp_now_send peer.peer_addr
            (uint32_bytes (p.1 % 2 ^ 32)) sizeof_count) p.2.ret) := by
  induction ticks using List.reverseRecOn with
  | nil => rfl
  | append_singleton ticks e ih =>
    rw [main_loop_trace_snoc, List.filter_append, ih, loop_body_sends, zip_range_snoc,
      List.map_append]
    rfl

theorem invoke_no_send (r : Run) (c : Call) (ret : esp_err_t)
    (hc : Event.is_send (Event.call c ret) = false) :
    (invoke r c ret).trace.filter Event.is_send = r.trace.filter Event.is_send := by
  rw [invoke_trace]
  split_ifs
  · rfl
  · simp [List.filter_append, hc]

theorem checked_no_send (r : Run) (c : Call) (ret : esp_err_t)
    (hc : Event.is_send (Event.call c ret) = false) :
    (checked r c ret).trace.filter Event.is_send = r.trace.filter Event.is_send := by
  rw [checked_trace]
  split_ifs
  · rfl
  · simp [List.filter_append, hc]

theorem wifi_init_no_send (cfg : BuildConfig) (P : Platform) (r : Run) :
    (wifi_init cfg P r).trace.filter Event.is_send = r.trace.filter Event.is_send := by
  cases hc5 : profile_c5 cfg <;> cases hc6 : profile_c6 cfg <;>
    simp [wifi_init, wifi_init_bandwidth, hc5, hc6, checked_no_send, invoke_no_send,
      Event.is_send, -checked_trace, -invoke_trace]

theorem esp_now_init_config_no_send (P : Platform) (r : Run) :
    (esp_now_init_config P peer r).trace.filter Event.is_send
      = r.trace.filter Event.is_send := by
  simp [esp_now_init_config, checked_no_send, Event.is_send, -checked_trace]

theorem app_main_setup_no_send (cfg : BuildConfig) (P : Platform) :
    (app_main_setup cfg P).trace.filter Event.is_send = [] := by
  unfold app_main_setup
  simp only [emit_trace]
  have h : (esp_now_init_config P peer (wifi_init cfg P (nvs_init P Run.start))).trace.filter
      Event.is_send = [] := by
    rw [esp_now_init_config_no_send, wifi_init_no_send]
    exact (nvs_init_no_later_calls P).2.2.1
  split_ifs
  · exact h
  · simp [List.filter_append, h, Event.is_send]

theorem app_main_sends (cfg : BuildConfig) (P : Platform) (ticks : List TickEnv) :
    (app_main cfg P ticks).trace.filter Event.is_send
      = if (app_main_setup cfg P).halted then []
        else (main_loop cfg ticks).trace.filter Event.is_send := by
  unfold app_main
  by_cases h : (app_main_setup cfg P).halted = true
  · simp [h, app_main_setup_no_send]
  · simp [h, List.filter_append, app_main_setup_no_send]

/-! ## What the loop sends -/

/-- C2: the sends in the trace of the loop are, in order, one per iteration: the one of
iteration k (counted from 0) goes to the broadcast address with length argument 4 and the
4-byte little-endian representation of k mod 2^32, which is the loop counter at that
moment; `app_main` sends exactly these once start-up has passed, and nothing otherwise.
Every payload has 4 bytes, and reading back the bytes of a 32-bit value gives the value. -/
theorem send_payload_is_counter (cfg : BuildConfig) (P : Platform) (ticks : List TickEnv)
    (e : TickEnv) (c : Nat) :
    (main_loop cfg ticks).trace.filter Event.is_send
        = ((List.range ticks.length).zip ticks).map
            (fun p => Event.call (Call.esp_now_send [0xff, 0xff, 0xff, 0xff, 0xff, 0xff]
              (uint32_bytes (p.1 % 2 ^ 32)) 4) p.2.ret)
    ∧ (main_loop cfg (ticks ++ [e])).trace.filter Event.is_send
        = (main_loop cfg ticks).trace.filter Event.is_send
          ++ [Event.call (Call.esp_now_send [0xff, 0xff, 0xff, 0xff, 0xff, 0xff]
                (uint32_bytes (main_loop cfg ticks).count) 4) e.ret]
    ∧ (main_loop cfg ticks).count = ticks.length % 2 ^ 32
    ∧ (app_main cfg P ticks).trace.filter Event.is_send
        = (if (app_main_setup cfg P).halted then []
           else (main_loop cfg ticks).trace.filter Event.is_send)
    ∧ (uint32_bytes c).length = 4
    ∧ (∀ b ∈ uint32_bytes c, b < 256)
    ∧ uint32_of_bytes (uint32_bytes (ticks.length % 2 ^ 32)) = ticks.length % 2 ^ 32
    ∧ uint32_of_bytes (uint32_bytes (c % 2 ^ 32)) = c % 2 ^ 32 := by
  refine ⟨main_loop_sends cfg ticks, ?_, main_loop_count_eq cfg ticks,
    app_main_sends cfg P ticks, rfl, ?_, ?_, ?_⟩
  · rw [main_loop_trace_snoc, List.filter_append, loop_body_sends, main_loop_count_eq]
    rfl
  · intro b hb
    simp only [uint32_bytes, List.mem_cons, List.mem_singleton, List.not_mem_nil, or_false] at hb
    omega
  · exact uint32_roundtrip _ (Nat.mod_lt _ (by norm_num))
  · exact uint32_roundtrip _ (Nat.mod_lt _ (by norm_num))

/-! ## When the health summary is logged -/

end CsiSend
